import Mathlib

/-!
Shallow embedding of the episode-control and reward-assessment subsystem of
`jsbgym_m` (`task_advanced.py`, `utils.py`).  Simulator property values
(Python floats) are modelled as exact rationals `ℚ`; the one place the code
computes a Euclidean norm (a square root) is modelled over `ℝ`.
-/

namespace Jsbgym

/-- Task class constants of `TrajectoryTask` (task_advanced.py). -/
def TARGET_xPOSITION_FT : ℚ := 2000

def TARGET_yPOSITION_FT : ℚ := -8000

def TARGET_zPOSITION_FT : ℚ := 0

def THROTTLE_CMD : ℚ := 6/10

def MIXTURE_CMD : ℚ := 8/10

def INITIAL_HEADING_DEG : ℚ := 270

def ALTITUDE_SCALING_FT : ℚ := 100

def POSITION_SCALING_MT : ℚ := 5000

def ROLL_ERROR_SCALING_RAD : ℚ := 15/100

def SIDESLIP_ERROR_SCALING_DEG : ℚ := 3

def MIN_STATE_QUALITY : ℚ := 0

def MAX_ALTITUDE_DEVIATION_FT : ℚ := 1000

def NAVIGATION_TOLERANCE : ℚ := 50

/-- A 3-component position, modelling the `init_ecef_position` list of three
floats captured in `TrajectoryTask._new_episode_init`. -/
structure Vec3 where
  x : ℚ
  y : ℚ
  z : ℚ
deriving DecidableEq

/-- The slice of the `Simulation` property store that `TrajectoryTask` reads
and writes: each field is one simulator property (a Python float, modelled
exactly as `ℚ`). -/
structure SimState where
  steps_left : ℚ
  last_assessment_reward : ℚ
  altitude_error_ft : ℚ
  position_error_mt : ℚ
  ecef_x_ft : ℚ
  ecef_y_ft : ℚ
  ecef_z_ft : ℚ
  target_Xposition : ℚ
  target_Yposition : ℚ
  throttle_cmd : ℚ
  mixture_cmd : ℚ
deriving DecidableEq

/-- Per-instance configuration and episode state of a `TrajectoryTask`:
the `positive_rewards` flag, the episode-length configuration, and the
`init_ecef_position` anchor captured at episode start. -/
structure TaskState where
  positive_rewards : Bool
  episode_time_s : ℚ
  step_frequency_hz : ℚ
  init_ecef_position : Vec3
deriving DecidableEq

/-- `episode_steps = math.ceil(self.max_time_s * step_frequency_hz)`, the
declared maximum of the `steps_left` bounded property. -/
def episode_steps (t : TaskState) : ℤ :=
  ⌈t.episode_time_s * t.step_frequency_hz⌉

/-- Modelled from the spec: `rewards.Reward` (jsbgym_m/rewards.py is not under
src/): a computed pair `(agent_reward, assessment_reward)`. -/
structure Reward where
  agent_reward : ℚ
  assessment_reward : ℚ
deriving DecidableEq

/-- Modelled from the spec: `rewards.RewardStub` (jsbgym_m/rewards.py is not
under src/): a Reward holding the two given scalars. -/
def RewardStub (agent_reward assessment_reward : ℚ) : Reward :=
  ⟨agent_reward, assessment_reward⟩

/-- `TrajectoryTask._altitude_out_of_bounds`:
`abs(altitude_error_ft) > self.MAX_ALTITUDE_DEVIATION_FT`. -/
def _altitude_out_of_bounds (s : SimState) : Bool :=
  decide (|s.altitude_error_ft| > MAX_ALTITUDE_DEVIATION_FT)

/-- `TrajectoryTask._arrive_at_navigation_point`:
`sim[self.position_error_mt] < self.NAVIGATION_TOLERANCE`. -/
def _arrive_at_navigation_point (s : SimState) : Bool :=
  decide (s.position_error_mt < NAVIGATION_TOLERANCE)

/-- `TrajectoryTask._is_terminal`: `terminal_step or state_out_of_bounds or
self._altitude_out_of_bounds(sim) or self._arrive_at_navigation_point(sim)`. -/
def _is_terminal (s : SimState) : Bool :=
  decide (s.steps_left ≤ 0)
    || decide (s.last_assessment_reward < MIN_STATE_QUALITY)
    || _altitude_out_of_bounds s
    || _arrive_at_navigation_point s

/-- `TrajectoryTask._get_out_of_bounds_reward`:
`reward_scalar = (1 + sim[self.steps_left]) * -1.0; RewardStub(reward_scalar, reward_scalar)`. -/
def _get_out_of_bounds_reward (s : SimState) : Reward :=
  RewardStub ((1 + s.steps_left) * (-1)) ((1 + s.steps_left) * (-1))

/-- `TrajectoryTask._reward_terminal_override`: replace the reward by the
out-of-bounds penalty when the altitude envelope is violated and the task does
not use positive rewards; otherwise return the reward unchanged. -/
def _reward_terminal_override (t : TaskState) (reward : Reward) (s : SimState) : Reward :=
  if _altitude_out_of_bounds s && !t.positive_rewards then
    _get_out_of_bounds_reward s
  else
    reward

/-- `TrajectoryTask._get_target_position`: dispatch on the flag string; the
target coordinate is the fixed offset plus the corresponding component of the
`init_ecef_position` anchor; any other flag raises `ValueError`, modelled as
`Except.error`. -/
def _get_target_position (t : TaskState) (flag : String) : Except String ℚ :=
  if flag = "x" then
    .ok (TARGET_xPOSITION_FT + t.init_ecef_position.x)
  else if flag = "y" then
    .ok (TARGET_yPOSITION_FT + t.init_ecef_position.y)
  else if flag = "z" then
    .ok (TARGET_zPOSITION_FT + t.init_ecef_position.z)
  else
    .error ("Unsupported flag in get target position: " ++ flag)

/-- `TrajectoryTask._update_position_error`: the code computes
`error_mt = (Vector2(ecef_x, ecef_y) - Vector2(target_X, target_Y)).Norm()`
and stores it in `position_error_mt`.  The Euclidean norm is a square root and
is modelled exactly over `ℝ` in the `RealSim` section below; in this rational
embedding of the property store the computed norm value is passed as the
argument `error_mt`. -/
def _update_position_error (error_mt : ℚ) (s : SimState) : SimState :=
  { s with position_error_mt := error_mt }

/-- `TrajectoryTask._update_altitude_error`:
`sim[altitude_error_ft] = sim[ecef_z_ft] - self._get_target_position("z")`. -/
def _update_altitude_error (t : TaskState) (s : SimState) : Except String SimState := do
  let target_z_ft ← _get_target_position t "z"
  pure { s with altitude_error_ft := s.ecef_z_ft - target_z_ft }

/-- `TrajectoryTask._decrement_steps_left`: `sim[self.steps_left] -= 1`. -/
def _decrement_steps_left (s : SimState) : SimState :=
  { s with steps_left := s.steps_left - 1 }

/-- `TrajectoryTask._update_custom_properties`: the per-step update hook runs
the position-error update, the altitude-error update, then the step-counter
decrement. -/
def _update_custom_properties (t : TaskState) (error_mt : ℚ) (s : SimState) :
    Except String SimState := do
  let s1 := _update_position_error error_mt s
  let s2 ← _update_altitude_error t s1
  pure (_decrement_steps_left s2)

/-- `n` successive per-step update calls, propagating any error. -/
def run_steps (t : TaskState) (error_mt : ℚ) : ℕ → SimState → Except String SimState
  | 0, s => .ok s
  | n + 1, s => do
    let s1 ← _update_custom_properties t error_mt s
    run_steps t error_mt n s1

/-- `TrajectoryTask._new_episode_init`: set throttle/mixture, reset
`steps_left` to the declared maximum, capture the `init_ecef_position` anchor
from the live simulator position, then write the x/y target properties.
The superclass hook `FlightTask._new_episode_init` (jsbgym_m/tasks.py, not
under src/) runs first and does not touch any of the fields modelled here. -/
def _new_episode_init (t : TaskState) (s : SimState) : Except String (TaskState × SimState) := do
  let s1 := { s with throttle_cmd := THROTTLE_CMD, mixture_cmd := MIXTURE_CMD }
  let s2 := { s1 with steps_left := ((episode_steps t : ℤ) : ℚ) }
  let t1 := { t with init_ecef_position := ⟨s2.ecef_x_ft, s2.ecef_y_ft, s2.ecef_z_ft⟩ }
  let tx ← _get_target_position t1 "x"
  let s3 := { s2 with target_Xposition := tx }
  let ty ← _get_target_position t1 "y"
  pure (t1, { s3 with target_Yposition := ty })

/-- The reward-shaping modes (`Shaping` enum of jsbgym_m/tasks.py; its three
enumerants `STANDARD`, `EXTRA`, `EXTRA_SEQUENTIAL` appear in
jsbgym_m/utils.py). -/
inductive Shaping where
  | STANDARD
  | EXTRA
  | EXTRA_SEQUENTIAL
deriving DecidableEq

/-- The string form of a shaping enumerant, as interpolated into the
`ValueError` message. -/
def Shaping.str : Shaping → String
  | .STANDARD => "Shaping.STANDARD"
  | .EXTRA => "Shaping.EXTRA"
  | .EXTRA_SEQUENTIAL => "Shaping.EXTRA_SEQUENTIAL"

/-- The simulator properties used by the reward components built in
task_advanced.py. -/
inductive Prp where
  | altitude_error_ft
  | position_error_mt
  | roll_rad
  | sideslip_deg
deriving DecidableEq

/-- Modelled from the spec: `rewards.AsymptoticErrorComponent`
(jsbgym_m/rewards.py is not under src/) is an immutable value object; the
fields are those passed at its construction sites in task_advanced.py
(`state_variables`, identical for every component of a task, is omitted). -/
structure RewardComponent where
  name : String
  prop : Prp
  target : ℚ
  is_potential_based : Bool
  scaling_factor : ℚ
deriving DecidableEq

/-- Modelled from the spec: `assessors.AssessorImpl` (jsbgym_m/assessors.py is
not under src/) holds the base components, the shaping components and the
`positive_rewards` flag it is constructed with. -/
structure AssessorImpl where
  base_components : List RewardComponent
  shaping_components : List RewardComponent
  positive_rewards : Bool
deriving DecidableEq

/-- `TrajectoryTask._make_base_reward_components`: the altitude-error and
position-error components (the remaining components at this site are
commented out in the source). -/
def _make_base_reward_components : List RewardComponent :=
  [⟨"altitude_error", .altitude_error_ft, 0, false, ALTITUDE_SCALING_FT⟩,
   ⟨"position_error", .position_error_mt, 0, false, POSITION_SCALING_MT⟩]

/-- `TrajectoryTask._select_assessor`: `STANDARD` builds an `AssessorImpl`
from the given components; otherwise the two potential-based shaping
components are built, `EXTRA` builds an `AssessorImpl` with them, and any
other mode raises `ValueError`, modelled as `Except.error`. -/
def _select_assessor (t : TaskState) (base_components shaping_components : List RewardComponent)
    (shaping : Shaping) : Except String AssessorImpl :=
  if shaping = .STANDARD then
    .ok ⟨base_components, shaping_components, t.positive_rewards⟩
  else
    let wings_level : RewardComponent :=
      ⟨"wings_level", .roll_rad, 0, true, ROLL_ERROR_SCALING_RAD⟩
    let no_sideslip : RewardComponent :=
      ⟨"no_sideslip", .sideslip_deg, 0, true, SIDESLIP_ERROR_SCALING_DEG⟩
    if shaping = .EXTRA then
      .ok ⟨base_components, [wings_level, no_sideslip], t.positive_rewards⟩
    else
      .error ("Unsupported shaping type: " ++ shaping.str)

/-- `TrajectoryTask.make_assessor`: base components from
`_make_base_reward_components`, an empty tuple of shaping components, then
`_select_assessor`. -/
def make_assessor (t : TaskState) (shaping : Shaping) : Except String AssessorImpl :=
  _select_assessor t _make_base_reward_components [] shaping

/-- Modelled from the spec: Property keys (jsbgym_m/properties.py is not under
src/) are opaque typed keys of the initial-condition mapping; the named
constructors are the keys appearing in task_advanced.py and `other` covers
every remaining key of the base initial-condition set. -/
inductive PropKey where
  | initial_u_fps
  | initial_v_fps
  | initial_w_fps
  | initial_p_radps
  | initial_q_radps
  | initial_r_radps
  | initial_roc_fpm
  | initial_heading_deg
  | other (name : String)
deriving DecidableEq

/-- An initial-condition mapping, modelling a Python dict as an association
list with unique keys kept in insertion order. -/
abbrev ICDict := List (PropKey × ℚ)

/-- Python dict item assignment `d[k] = v`: replace the value at an existing
key in place, else append the new key at the end. -/
def dictSet : ICDict → PropKey → ℚ → ICDict
  | [], k, v => [(k, v)]
  | (k', v') :: rest, k, v =>
    if k' = k then (k, v) :: rest else (k', v') :: dictSet rest k v

/-- Python dict lookup `d[k]` (`none` when the key is absent). -/
def dictLookup : ICDict → PropKey → Option ℚ
  | [], _ => none
  | (k', v') :: rest, k => if k' = k then some v' else dictLookup rest k

/-- Python dict merge `{**a, **b}`: every entry of `b` is assigned into `a`
in order, so on a conflict the later (`b`) value overrides. -/
def dictMerge (a b : ICDict) : ICDict :=
  b.foldl (fun d kv => dictSet d kv.1 kv.2) a

/-- The `extra_conditions` dict literal built by
`TrajectoryTask.get_initial_conditions`; `cruise_speed_fps` is
`self.aircraft.get_cruise_speed_fps()`. -/
def extra_conditions (cruise_speed_fps : ℚ) : ICDict :=
  [(.initial_u_fps, cruise_speed_fps),
   (.initial_v_fps, 0),
   (.initial_w_fps, 0),
   (.initial_p_radps, 0),
   (.initial_q_radps, 0),
   (.initial_r_radps, 0),
   (.initial_roc_fpm, 0),
   (.initial_heading_deg, INITIAL_HEADING_DEG)]

/-- `TrajectoryTask.get_initial_conditions`:
`{**self.base_initial_conditions, **extra_conditions}`.
`FlightTask.base_initial_conditions` (jsbgym_m/tasks.py, not under src/) is
passed abstractly as `base_initial_conditions`. -/
def TrajectoryTask.get_initial_conditions (base_initial_conditions : ICDict)
    (cruise_speed_fps : ℚ) : ICDict :=
  dictMerge base_initial_conditions (extra_conditions cruise_speed_fps)

/-- Modelled from the spec: the inclusive bounds of `prp.heading_deg`
(jsbgym_m/properties.py is not under src/): heading in degrees spans
`[0, 360]`. -/
def heading_deg_min : ℚ := 0

/-- Modelled from the spec: upper bound of `prp.heading_deg`. -/
def heading_deg_max : ℚ := 360

/-- `TurnHeadingControlTask.get_initial_conditions`: take the parent task's
mapping (`super().get_initial_conditions()`, resolved in jsbgym_m/tasks.py
which is not under src/, so passed abstractly) and assign
`initial_conditions[prp.initial_heading_deg] = random_heading`, where
`random_heading = random.uniform(prp.heading_deg.min, prp.heading_deg.max)`
is passed as the outcome of the random draw. -/
def TurnHeadingControlTask.get_initial_conditions (parent_initial_conditions : ICDict)
    (random_heading : ℚ) : ICDict :=
  dictSet parent_initial_conditions .initial_heading_deg random_heading

/-- Python float `%` with a positive right operand:
`a % b = a - b * floor(a / b)`. -/
def pymod (a b : ℚ) : ℚ := a - b * ⌊a / b⌋

/-- `utils.reduce_reflex_angle_deg`: `new_angle = angle % 360`, subtract 360
when the result exceeds 180. -/
def reduce_reflex_angle_deg (angle : ℚ) : ℚ :=
  let new_angle := pymod angle 360
  if new_angle > 180 then new_angle - 360 else new_angle

namespace RealSim

/-- Modelled from the spec: `prp.Vector2` (jsbgym_m/properties.py is not under
src/), a 2D vector with componentwise subtraction, whose `Norm()` is the
Euclidean norm of the 2D offset. -/
structure Vector2 where
  x : ℝ
  y : ℝ

instance : Sub Vector2 :=
  ⟨fun a b => ⟨a.x - b.x, a.y - b.y⟩⟩

/-- Modelled from the spec: `Vector2.Norm()`, the Euclidean norm. -/
noncomputable def Vector2.Norm (v : Vector2) : ℝ :=
  Real.sqrt (v.x ^ 2 + v.y ^ 2)

/-- The real-valued view of the simulator properties touched by the two
error-update hooks, for the exact treatment of the Euclidean norm. -/
structure State where
  ecef_x_ft : ℝ
  ecef_y_ft : ℝ
  ecef_z_ft : ℝ
  target_Xposition : ℝ
  target_Yposition : ℝ
  position_error_mt : ℝ
  altitude_error_ft : ℝ

/-- `TrajectoryTask._update_position_error` over `ℝ`: build the aircraft and
target 2D vectors, store the norm of their difference in
`position_error_mt`. -/
noncomputable def _update_position_error (s : State) : State :=
  let position : Vector2 := ⟨s.ecef_x_ft, s.ecef_y_ft⟩
  let target_position : Vector2 := ⟨s.target_Xposition, s.target_Yposition⟩
  let error_mt := (position - target_position).Norm
  { s with position_error_mt := error_mt }

/-- `TrajectoryTask._update_altitude_error` over `ℝ`: store
`ecef_z_ft - target_z_ft` in `altitude_error_ft`; `target_z_ft` is the value
of `self._get_target_position("z")`, passed as an argument. -/
def _update_altitude_error (target_z_ft : ℝ) (s : State) : State :=
  let z_position := s.ecef_z_ft
  let error_ft := z_position - target_z_ft
  { s with altitude_error_ft := error_ft }

end RealSim

/-- The concrete scenario task configuration: `episode_time_s = 60`,
`step_frequency_hz = 5`, negative rewards, anchor at the ECEF origin. -/
def scenario_task : TaskState := ⟨false, 60, 5, ⟨0, 0, 0⟩⟩

/-- The scenario simulator state at episode start: `steps_left = 300`, a
healthy assessment reward, zero altitude error, position error 100 (outside
`NAVIGATION_TOLERANCE`), aircraft at the ECEF origin, targets written by the
episode-start hook. -/
def scenario_start : SimState := ⟨300, 1, 0, 100, 0, 0, 0, 2000, -8000, 6/10, 8/10⟩

/-- Claim C1: with `positive_rewards = false`, termination by altitude-envelope
violation (`|altitude_error| > MAX_ALTITUDE_DEVIATION_FT`) makes
`_reward_terminal_override` discard the Assessor's reward and return a
`Reward` with both fields equal to `-(1 + steps_left)`, where `steps_left` is
the simulator's current (post-decrement) value; with
`positive_rewards = true` the original reward is returned unchanged. -/
theorem C1_reward_terminal_override (t : TaskState) (reward : Reward) (s : SimState) :
    (|s.altitude_error_ft| > MAX_ALTITUDE_DEVIATION_FT → t.positive_rewards = false →
      _reward_terminal_override t reward s =
        ⟨-(1 + s.steps_left), -(1 + s.steps_left)⟩) ∧
    (t.positive_rewards = true → _reward_terminal_override t reward s = reward) := by
  constructor
  · intro halt hpr
    simp only [_reward_terminal_override, _altitude_out_of_bounds, _get_out_of_bounds_reward,
      RewardStub, hpr, halt, decide_True, Bool.not_false, Bool.and_true, if_true,
      Reward.mk.injEq]
    constructor <;> ring
  · intro hpr
    simp [_reward_terminal_override, hpr]

/-- Witness for C1: at altitude error 1001 (envelope violated) and
`steps_left = 10`, the override with negative rewards yields `(-11, -11)`,
while with positive rewards the incoming reward `(7, 7)` is unchanged. -/
theorem C1_reward_terminal_override_witness :
    _reward_terminal_override ⟨false, 60, 5, ⟨0, 0, 0⟩⟩ ⟨7, 7⟩
        ⟨10, 1, 1001, 100, 0, 0, 0, 0, 0, 0, 0⟩ = ⟨-11, -11⟩ ∧
    _reward_terminal_override ⟨true, 60, 5, ⟨0, 0, 0⟩⟩ ⟨7, 7⟩
        ⟨10, 1, 1001, 100, 0, 0, 0, 0, 0, 0, 0⟩ = ⟨7, 7⟩ := by
  constructor
  · have h := (C1_reward_terminal_override ⟨false, 60, 5, ⟨0, 0, 0⟩⟩ ⟨7, 7⟩
      ⟨10, 1, 1001, 100, 0, 0, 0, 0, 0, 0, 0⟩).1 (by decide) rfl
    rw [h]
    norm_num
  · exact (C1_reward_terminal_override ⟨true, 60, 5, ⟨0, 0, 0⟩⟩ ⟨7, 7⟩
      ⟨10, 1, 1001, 100, 0, 0, 0, 0, 0, 0, 0⟩).2 rfl

/-- Claim C2: `_is_terminal` holds exactly when one of the four triggers holds
(`steps_left ≤ 0`, assessment reward below `MIN_STATE_QUALITY`, altitude
error beyond `MAX_ALTITUDE_DEVIATION_FT`, position error within
`NAVIGATION_TOLERANCE`); the last two comparisons are strict: position error
exactly 50 does not terminate while 49 does, and altitude error exactly 1000
does not terminate while 1001 does. -/
theorem C2_is_terminal_iff :
    (∀ s : SimState, _is_terminal s = true ↔
      (s.steps_left ≤ 0 ∨ s.last_assessment_reward < MIN_STATE_QUALITY ∨
        |s.altitude_error_ft| > MAX_ALTITUDE_DEVIATION_FT ∨
        s.position_error_mt < NAVIGATION_TOLERANCE)) ∧
    _is_terminal ⟨5, 1, 0, 50, 0, 0, 0, 0, 0, 0, 0⟩ = false ∧
    _is_terminal ⟨5, 1, 0, 49, 0, 0, 0, 0, 0, 0, 0⟩ = true ∧
    _is_terminal ⟨5, 1, 1000, 100, 0, 0, 0, 0, 0, 0, 0⟩ = false ∧
    _is_terminal ⟨5, 1, 1001, 100, 0, 0, 0, 0, 0, 0, 0⟩ = true := by
  refine ⟨?_, by decide, by decide, by decide, by decide⟩
  intro s
  simp [_is_terminal, _altitude_out_of_bounds, _arrive_at_navigation_point, or_assoc]

/-- Claim C3: `_select_assessor` (through `make_assessor`) returns the base
components with no shaping components for `STANDARD`; for `EXTRA` it returns
the base components plus exactly the two potential-based shaping components
(wings-level on roll and no-sideslip), each with `is_potential_based = true`
and the task-specific scaling factors; every other mode yields a hard
construction-time error and never a partially-shaped Assessor. -/
theorem C3_select_assessor (t : TaskState) :
    make_assessor t .STANDARD =
      .ok ⟨_make_base_reward_components, [], t.positive_rewards⟩ ∧
    make_assessor t .EXTRA =
      .ok ⟨_make_base_reward_components,
        [⟨"wings_level", .roll_rad, 0, true, ROLL_ERROR_SCALING_RAD⟩,
         ⟨"no_sideslip", .sideslip_deg, 0, true, SIDESLIP_ERROR_SCALING_DEG⟩],
        t.positive_rewards⟩ ∧
    ∀ (base_components shaping_components : List RewardComponent) (m : Shaping),
      m ≠ .STANDARD → m ≠ .EXTRA →
      _select_assessor t base_components shaping_components m =
        .error ("Unsupported shaping type: " ++ m.str) := by
  refine ⟨rfl, rfl, ?_⟩
  intro base_components shaping_components m h1 h2
  cases m with
  | STANDARD => exact absurd rfl h1
  | EXTRA => exact absurd rfl h2
  | EXTRA_SEQUENTIAL => rfl

/-- Witness for C3: requesting `EXTRA_SEQUENTIAL` fails construction with the
`ValueError` message. -/
theorem C3_select_assessor_witness :
    _select_assessor ⟨true, 60, 5, ⟨0, 0, 0⟩⟩ [] [] .EXTRA_SEQUENTIAL =
      .error "Unsupported shaping type: Shaping.EXTRA_SEQUENTIAL" := by
  have h := (C3_select_assessor ⟨true, 60, 5, ⟨0, 0, 0⟩⟩).2.2 [] [] .EXTRA_SEQUENTIAL
    (by decide) (by decide)
  rw [h]
  rfl

/-- Claim C8: `_get_target_position` returns a value for exactly the flags `"x"`,
`"y"`, `"z"`, and raises a hard error (`ValueError`) on every other flag
rather than falling back to a default. -/
theorem C8_get_target_position_flags (t : TaskState) :
    _get_target_position t "x" = .ok (TARGET_xPOSITION_FT + t.init_ecef_position.x) ∧
    _get_target_position t "y" = .ok (TARGET_yPOSITION_FT + t.init_ecef_position.y) ∧
    _get_target_position t "z" = .ok (TARGET_zPOSITION_FT + t.init_ecef_position.z) ∧
    ∀ flag : String, flag ≠ "x" → flag ≠ "y" → flag ≠ "z" →
      _get_target_position t flag =
        .error ("Unsupported flag in get target position: " ++ flag) := by
  refine ⟨rfl, rfl, rfl, ?_⟩
  intro flag h1 h2 h3
  simp [_get_target_position, h1, h2, h3]

/-- Witness for C8: the unknown flag `"w"` fails with the `ValueError`
message. -/
theorem C8_get_target_position_flags_witness :
    _get_target_position ⟨true, 60, 5, ⟨100, 200, 300⟩⟩ "w" =
      .error "Unsupported flag in get target position: w" := by
  have h := (C8_get_target_position_flags ⟨true, 60, 5, ⟨100, 200, 300⟩⟩).2.2.2 "w"
    (by decide) (by decide) (by decide)
  rw [h]
  rfl

/-- Claim C5: the target position is the `init_ecef_position` anchor captured at
episode start plus the fixed offset `(2000, -8000, 0)`: `_new_episode_init`
writes `target_Xposition = 2000 + ecef_x` and `target_Yposition = -8000 +
ecef_y` and the z target is `0 + ecef_z`; with anchor `(100, 200, 300)` the
target is `(2100, -7800, 300)`; and no per-step update call changes the two
target properties (the z target depends only on the task's anchor, which the
per-step hook, a function of the read-only `TaskState`, never modifies). -/
theorem C5_target_position :
    (∀ (t : TaskState) (s : SimState),
      ∃ t' s', _new_episode_init t s = .ok (t', s') ∧
        s'.target_Xposition = TARGET_xPOSITION_FT + s.ecef_x_ft ∧
        s'.target_Yposition = TARGET_yPOSITION_FT + s.ecef_y_ft ∧
        _get_target_position t' "z" = .ok (TARGET_zPOSITION_FT + s.ecef_z_ft)) ∧
    (_get_target_position ⟨true, 60, 5, ⟨100, 200, 300⟩⟩ "x" = .ok 2100 ∧
     _get_target_position ⟨true, 60, 5, ⟨100, 200, 300⟩⟩ "y" = .ok (-7800) ∧
     _get_target_position ⟨true, 60, 5, ⟨100, 200, 300⟩⟩ "z" = .ok 300) ∧
    (∀ (t : TaskState) (error_mt : ℚ) (s : SimState),
      ∃ s', _update_custom_properties t error_mt s = .ok s' ∧
        s'.target_Xposition = s.target_Xposition ∧
        s'.target_Yposition = s.target_Yposition) := by
  have hx : _get_target_position ⟨true, 60, 5, ⟨100, 200, 300⟩⟩ "x" =
      .ok (TARGET_xPOSITION_FT + 100) := rfl
  have hy : _get_target_position ⟨true, 60, 5, ⟨100, 200, 300⟩⟩ "y" =
      .ok (TARGET_yPOSITION_FT + 200) := rfl
  have hz : _get_target_position ⟨true, 60, 5, ⟨100, 200, 300⟩⟩ "z" =
      .ok (TARGET_zPOSITION_FT + 300) := rfl
  refine ⟨?_, ⟨by rw [hx]; norm_num [TARGET_xPOSITION_FT],
    by rw [hy]; norm_num [TARGET_yPOSITION_FT],
    by rw [hz]; norm_num [TARGET_zPOSITION_FT]⟩, ?_⟩
  · intro t s
    exact ⟨_, _, rfl, rfl, rfl, rfl⟩
  · intro t error_mt s
    exact ⟨_, rfl, rfl, rfl⟩

/-- The closed form of the scenario run: `n` per-step update calls starting
from the scenario state with `steps_left = q` succeed and leave every other
property unchanged while `steps_left` drops to `q - n`. -/
theorem run_steps_scenario (n : ℕ) (q : ℚ) :
    run_steps scenario_task 100 n { scenario_start with steps_left := q } =
      .ok { scenario_start with steps_left := q - n } := by
  induction n generalizing q with
  | zero =>
    simp only [run_steps, Nat.cast_zero, sub_zero]
  | succ n ih =>
    have h1 : run_steps scenario_task 100 (n + 1) { scenario_start with steps_left := q } =
        run_steps scenario_task 100 n { scenario_start with steps_left := q - 1 } := by
      with_unfolding_all rfl
    rw [h1, ih (q - 1)]
    have h2 : q - 1 - (n : ℚ) = q - ((n : ℕ) + 1 : ℕ) := by push_cast; ring
    rw [h2]

/-- Claim C4: each per-step update call decreases `steps_left` by exactly 1;
`_new_episode_init` resets it to `ceil(episode_time_s * step_frequency_hz)`
regardless of the incoming state; with `episode_time_s = 60` and
`step_frequency_hz = 5` that maximum is 300; and in the scenario where no
other trigger fires, the termination predicate is false through step 299 and
becomes true after the 300th step call via `steps_left ≤ 0`. -/
theorem C4_steps_left_protocol :
    (∀ (t : TaskState) (error_mt : ℚ) (s : SimState),
      ∃ s', _update_custom_properties t error_mt s = .ok s' ∧
        s'.steps_left = s.steps_left - 1) ∧
    (∀ (t : TaskState) (s : SimState),
      ∃ t' s', _new_episode_init t s = .ok (t', s') ∧
        s'.steps_left = ((episode_steps t : ℤ) : ℚ)) ∧
    episode_steps scenario_task = 300 ∧
    (∀ n : ℕ, n < 300 →
      ∃ s', run_steps scenario_task 100 n scenario_start = .ok s' ∧
        _is_terminal s' = false) ∧
    (∃ s', run_steps scenario_task 100 300 scenario_start = .ok s' ∧
      s'.steps_left = 0 ∧ _is_terminal s' = true) := by
  refine ⟨?_, ?_, ?_, ?_, ?_⟩
  · intro t error_mt s
    exact ⟨_, rfl, rfl⟩
  · intro t s
    exact ⟨_, _, rfl, rfl⟩
  · norm_num [episode_steps, scenario_task]
  · intro n hn
    have hrun := run_steps_scenario n 300
    rw [show { scenario_start with steps_left := (300 : ℚ) } = scenario_start from rfl] at hrun
    refine ⟨_, hrun, ?_⟩
    have hn' : (n : ℚ) < 300 := by exact_mod_cast hn
    simp only [_is_terminal, _altitude_out_of_bounds, _arrive_at_navigation_point,
      Bool.or_eq_false_iff, decide_eq_false_iff_not, not_lt, not_le]
    exact ⟨⟨⟨by show (0 : ℚ) < 300 - (n : ℕ); linarith,
      by show MIN_STATE_QUALITY ≤ (1 : ℚ); norm_num [MIN_STATE_QUALITY]⟩,
      by show |(0 : ℚ)| ≤ MAX_ALTITUDE_DEVIATION_FT; norm_num [MAX_ALTITUDE_DEVIATION_FT]⟩,
      by show NAVIGATION_TOLERANCE ≤ (100 : ℚ); norm_num [NAVIGATION_TOLERANCE]⟩
  · have hrun := run_steps_scenario 300 300
    rw [show { scenario_start with steps_left := (300 : ℚ) } = scenario_start from rfl] at hrun
    have h0 : (300 : ℚ) - ((300 : ℕ) : ℚ) = 0 := by norm_num
    rw [h0] at hrun
    exact ⟨_, hrun, rfl, by decide⟩

/-- Witness for C4: the scenario at `n = 0` steps (with `0 < 300`) is still
running. -/
theorem C4_steps_left_protocol_witness :
    (0 : ℕ) < 300 ∧
    ∃ s', run_steps scenario_task 100 0 scenario_start = .ok s' ∧
      _is_terminal s' = false :=
  ⟨by decide, C4_steps_left_protocol.2.2.2.1 0 (by decide)⟩

/-- Componentwise subtraction of `Vector2`. -/
theorem RealSim.Vector2.sub_def (a b : RealSim.Vector2) :
    a - b = ⟨a.x - b.x, a.y - b.y⟩ := rfl

/-- Claim C6: each per-step update recomputes the error properties from live
simulator state: the stored `position_error_mt` is the (nonnegative)
Euclidean norm of the 2D horizontal offset between `(ecef_x, ecef_y)` and
`(target_Xposition, target_Yposition)` — characterised by its square — and
the stored `altitude_error_ft` is the signed vertical offset
`ecef_z - target_z`, not an absolute value. -/
theorem C6_error_updates (s : RealSim.State) (target_z_ft : ℝ) :
    (RealSim._update_position_error s).position_error_mt ^ 2 =
        (s.ecef_x_ft - s.target_Xposition) ^ 2 +
          (s.ecef_y_ft - s.target_Yposition) ^ 2 ∧
    0 ≤ (RealSim._update_position_error s).position_error_mt ∧
    (RealSim._update_altitude_error target_z_ft s).altitude_error_ft =
        s.ecef_z_ft - target_z_ft := by
  refine ⟨?_, ?_, rfl⟩
  · simp only [RealSim._update_position_error, RealSim.Vector2.sub_def, RealSim.Vector2.Norm]
    rw [Real.sq_sqrt (by positivity)]
  · simp only [RealSim._update_position_error, RealSim.Vector2.Norm]
    exact Real.sqrt_nonneg _

/-- Lookup after a Python dict item assignment: the assigned key reads the
new value, every other key is unchanged. -/
theorem dictLookup_dictSet (d : ICDict) (k : PropKey) (v : ℚ) (k' : PropKey) :
    dictLookup (dictSet d k v) k' = if k = k' then some v else dictLookup d k' := by
  induction d with
  | nil => simp [dictSet, dictLookup]
  | cons kv rest ih =>
    obtain ⟨k0, v0⟩ := kv
    by_cases h0 : k0 = k
    · subst h0
      by_cases h : k0 = k' <;> simp [dictSet, dictLookup, h]
    · by_cases h : k0 = k'
      · subst h
        have hkk : ¬(k = k0) := fun hh => h0 hh.symm
        simp [dictSet, dictLookup, h0, hkk]
      · simp [dictSet, dictLookup, h0, h, ih]

/-- Claim C7: `get_initial_conditions` is the Python dict merge of the base
initial-condition set with the task-specific `extra_conditions`: on any key
the task-specific (later) value overrides the base (earlier) one, and keys
absent from `extra_conditions` fall through to the base set; in
`TurnHeadingControlTask` the returned mapping additionally overrides the
`initial_heading_deg` key with the randomized draw. -/
theorem C7_initial_conditions_merge :
    (∀ (base_initial_conditions : ICDict) (cruise_speed_fps : ℚ) (k : PropKey),
      dictLookup (TrajectoryTask.get_initial_conditions base_initial_conditions
          cruise_speed_fps) k =
        match dictLookup (extra_conditions cruise_speed_fps) k with
        | some v => some v
        | none => dictLookup base_initial_conditions k) ∧
    (∀ (parent_initial_conditions : ICDict) (random_heading : ℚ),
      dictLookup (TurnHeadingControlTask.get_initial_conditions parent_initial_conditions
        random_heading) .initial_heading_deg = some random_heading) := by
  constructor
  · intro base cruise k
    simp only [TrajectoryTask.get_initial_conditions, dictMerge, extra_conditions,
      List.foldl, dictLookup_dictSet]
    cases k <;> simp [dictLookup]
  · intro parent r
    simp [TurnHeadingControlTask.get_initial_conditions, dictLookup_dictSet]

/-- Claim C10: `TurnHeadingControlTask.get_initial_conditions` agrees with the
parent mapping on every key other than `initial_heading_deg`, and the value
it assigns to `initial_heading_deg` is the drawn value, which (for any
outcome the uniform draw can produce) lies within the declared inclusive
bounds of the heading property. -/
theorem C10_turn_heading_override (parent_initial_conditions : ICDict) (random_heading : ℚ)
    (h1 : heading_deg_min ≤ random_heading) (h2 : random_heading ≤ heading_deg_max) :
    dictLookup (TurnHeadingControlTask.get_initial_conditions parent_initial_conditions
      random_heading) .initial_heading_deg = some random_heading ∧
    heading_deg_min ≤ random_heading ∧ random_heading ≤ heading_deg_max ∧
    ∀ k : PropKey, k ≠ .initial_heading_deg →
      dictLookup (TurnHeadingControlTask.get_initial_conditions parent_initial_conditions
        random_heading) k = dictLookup parent_initial_conditions k := by
  refine ⟨?_, h1, h2, ?_⟩
  · simp [TurnHeadingControlTask.get_initial_conditions, dictLookup_dictSet]
  · intro k hk
    simp only [TurnHeadingControlTask.get_initial_conditions, dictLookup_dictSet]
    rw [if_neg fun hh => hk hh.symm]

/-- Witness for C10: with a one-entry parent mapping and the draw 100 (inside
`[0, 360]`), the heading key reads 100 and the parent key is unchanged. -/
theorem C10_turn_heading_override_witness :
    dictLookup (TurnHeadingControlTask.get_initial_conditions [(.other "ic", 5)] 100)
      .initial_heading_deg = some 100 ∧
    dictLookup (TurnHeadingControlTask.get_initial_conditions [(.other "ic", 5)] 100)
      (.other "ic") = some 5 := by
  have h := C10_turn_heading_override [(.other "ic", 5)] 100
    (by norm_num [heading_deg_min]) (by norm_num [heading_deg_max])
  refine ⟨h.1, ?_⟩
  rw [h.2.2.2 (.other "ic") (by decide)]
  decide

/-- `a % 360` in Python lies in `[0, 360)`: lower bound. -/
theorem pymod_nonneg (a : ℚ) : 0 ≤ pymod a 360 := by
  have h := Int.floor_le (a / 360)
  unfold pymod
  linarith

/-- `a % 360` in Python lies in `[0, 360)`: upper bound. -/
theorem pymod_lt (a : ℚ) : pymod a 360 < 360 := by
  have h := Int.lt_floor_add_one (a / 360)
  unfold pymod
  linarith

/-- `reduce_reflex_angle_deg` fixes every point of its range `(-180, 180]`. -/
theorem reduce_reflex_angle_deg_id (x : ℚ) (h1 : -180 < x) (h2 : x ≤ 180) :
    reduce_reflex_angle_deg x = x := by
  rcases le_or_lt 0 x with hx | hx
  · have hfloor : ⌊x / 360⌋ = 0 := by
      rw [Int.floor_eq_zero_iff, Set.mem_Ico]
      constructor
      · positivity
      · rw [div_lt_one (by norm_num)]
        linarith
    simp only [reduce_reflex_angle_deg, pymod, hfloor, Int.cast_zero, mul_zero, sub_zero]
    rw [if_neg (not_lt.mpr h2)]
  · have hfloor : ⌊x / 360⌋ = -1 := by
      rw [Int.floor_eq_iff]
      constructor
      · push_cast
        rw [le_div_iff₀ (by norm_num : (0:ℚ) < 360)]
        linarith
      · push_cast
        rw [div_lt_iff₀ (by norm_num : (0:ℚ) < 360)]
        linarith
    simp only [reduce_reflex_angle_deg, pymod, hfloor]
    push_cast
    rw [if_pos (by linarith)]
    ring

/-- Claim C9: `reduce_reflex_angle_deg` differs from its input by an integer
multiple of 360, lands in the half-open interval `(-180, 180]`, and is
therefore idempotent. -/
theorem C9_reduce_reflex_angle (angle : ℚ) :
    (∃ k : ℤ, reduce_reflex_angle_deg angle - angle = 360 * k) ∧
    -180 < reduce_reflex_angle_deg angle ∧
    reduce_reflex_angle_deg angle ≤ 180 ∧
    reduce_reflex_angle_deg (reduce_reflex_angle_deg angle) =
      reduce_reflex_angle_deg angle := by
  have h0 := pymod_nonneg angle
  have h1 := pymod_lt angle
  have hrange : -180 < reduce_reflex_angle_deg angle ∧
      reduce_reflex_angle_deg angle ≤ 180 := by
    simp only [reduce_reflex_angle_deg]
    split_ifs with hc
    · constructor <;> linarith
    · push_neg at hc
      constructor <;> linarith
  refine ⟨?_, hrange.1, hrange.2, reduce_reflex_angle_deg_id _ hrange.1 hrange.2⟩
  simp only [reduce_reflex_angle_deg, pymod]
  split_ifs with hc
  · exact ⟨-(⌊angle / 360⌋ + 1), by push_cast; ring⟩
  · exact ⟨-⌊angle / 360⌋, by push_cast; ring⟩

end Jsbgym
